import Mathlib

set_option maxRecDepth 40000

/-!
Verification of the portfolio-website contact pipeline.

The repository contains an Express backend (`server.js`) and a serverless
variant (`api/contact.js`, `api/health.js`).  Both validate a contact-form
submission, the Express server appends a log entry to a text file and both
render an HTML + plain-text notification email and hand it to a mail
transport.  This file embeds those functions shallowly: JavaScript strings
become Lean `String`s, the stateful request handlers become pure functions
from an explicit environment (transporter present?, does `sendMail` throw?,
does the file append throw?) to a response value paired with a trace of the
side effects the handler performed, in order.
-/

/- ===================== Small JavaScript string helpers ===================== -/

/-- Model of JavaScript `String.prototype.trim`: remove leading and trailing
whitespace.  (Defined over the character list so that it is kernel-reducible.) -/
def jsTrim (s : String) : String :=
  ⟨((s.data.dropWhile Char.isWhitespace).reverse.dropWhile Char.isWhitespace).reverse⟩

/-- Model of JavaScript `name.split(' ')[0]`: the longest space-free prefix. -/
def firstWord (s : String) : String :=
  ⟨s.data.takeWhile (fun c => c ≠ ' ')⟩

/- ===================== Email validation (the regex) ===================== -/

/-- The character class `[^\s@]` of the email regex: not whitespace, not `@`. -/
def isEmailChar (c : Char) : Bool := !c.isWhitespace && c != '@'

/-- Backtracking matcher for `[^\s@]+` followed by a continuation `k`
(one or more email characters, then the rest must satisfy `k`). -/
def plusThen (k : List Char → Bool) : List Char → Bool
  | [] => false
  | c :: cs => isEmailChar c && (k cs || plusThen k cs)

/-- Matcher for the tail `\.[^\s@]+$` of the email regex. -/
def dotTail : List Char → Bool
  | c :: cs => c == '.' && (!cs.isEmpty && cs.all isEmailChar)
  | [] => false

/-- Matcher for `@[^\s@]+\.[^\s@]+$`, i.e. the at-sign and the domain. -/
def atDomain : List Char → Bool
  | c :: cs => c == '@' && plusThen dotTail cs
  | [] => false

/-- Translation of `isValidEmail` from the source: the regex
`^[^\s@]+@[^\s@]+\.[^\s@]+$` applied to the whole string. -/
def isValidEmail (email : String) : Bool :=
  plusThen atDomain email.data

/-- The email shape described by the specification: a non-empty run of
non-whitespace non-`@` characters, an `@`, a non-empty run, a `.`, and a final
non-empty run. -/
def emailPatternMatches (email : String) : Prop :=
  ∃ l d1 d2 : List Char,
    email.data = l ++ '@' :: (d1 ++ '.' :: d2) ∧
    l ≠ [] ∧ d1 ≠ [] ∧ d2 ≠ [] ∧
    ∀ c ∈ l ++ d1 ++ d2, ¬c.isWhitespace ∧ c ≠ '@'

/- ===================== Validation ===================== -/

/-- The four raw request-body fields. -/
structure SubmissionInput where
  name : String
  email : String
  subject : String
  message : String
deriving DecidableEq

def nameErrorMsg : String := "Name is required (min 2 characters)"

def emailErrorMsg : String := "Valid email address is required"

def subjectErrorMsg : String := "Subject is required (min 3 characters)"

def messageErrorMsg : String := "Message is required (min 20 characters)"

/-- The `errors` array built by both handlers.  Each check mirrors one
`if (...) errors.push(...)` statement; for string-valued fields the JavaScript
falsiness test `!x` is `x = ""`. -/
def validationErrors (i : SubmissionInput) : List String :=
  (if i.name = "" ∨ (jsTrim i.name).length < 2 then [nameErrorMsg] else []) ++
  (if i.email = "" ∨ isValidEmail i.email = false then [emailErrorMsg] else []) ++
  (if i.subject = "" ∨ (jsTrim i.subject).length < 3 then [subjectErrorMsg] else []) ++
  (if i.message = "" ∨ (jsTrim i.message).length < 20 then [messageErrorMsg] else [])

/-- The specification's `ValidationResult`. -/
inductive ValidationResult where
  | valid : ValidationResult
  | invalid : List String → ValidationResult
deriving DecidableEq

/-- The validation step of both handlers: `Valid` when the errors array stayed
empty, otherwise `Invalid` carrying the collected error messages. -/
def validate (i : SubmissionInput) : ValidationResult :=
  let errors := validationErrors i
  if errors.length > 0 then ValidationResult.invalid errors else ValidationResult.valid

/- ===================== HTML escaping ===================== -/

/-- Translation of `escapeHtml` from the source: character-wise replacement of
the five characters handled by the regex replace; every other character is kept.
(`Char.ofNat 39` is the apostrophe.) -/
def escChar (c : Char) : List Char :=
  if c = '&' then "&amp;".data
  else if c = '<' then "&lt;".data
  else if c = '>' then "&gt;".data
  else if c = '"' then "&quot;".data
  else if c = Char.ofNat 39 then "&#039;".data
  else [c]

def escapeHtml (text : String) : String :=
  ⟨text.data.flatMap escChar⟩

/- ===================== Email templates (verbatim chunks) =====================
The generated HTML of `generateEmailTemplate` (server.js), the plain-text body
of `generatePlainTextEmail` (server.js) and the HTML of the serverless
`generateEmailTemplate` (api/contact.js) are template literals; the constant
text between the interpolation points is reproduced verbatim below, and the
template functions concatenate it with the interpolated values. -/

def htmlChunk0 : String :=
  "\n<!DOCTYPE html>\n<html lang=\"en\">\n<head>\n    <meta charset=\"UTF-8\">\n    <meta name=\"viewport\" content=\"width=device-width, initial-scale=1.0\">\n    <title>New Contact Form Submission</title>\n</head>\n<body style=\"margin: 0; padding: 0; font-family: \x27Segoe UI\x27, Tahoma, Geneva, Verdana, sans-serif; background-color: #0a0a0f;\">\n    <table role=\"presentation\" width=\"100%\" cellspacing=\"0\" cellpadding=\"0\" style=\"background-color: #0a0a0f; padding: 40px 20px;\">\n        <tr>\n            <td align=\"center\">\n                <table role=\"presentation\" width=\"600\" cellspacing=\"0\" cellpadding=\"0\" style=\"background: linear-gradient(145deg, #0d1b2a, #1a1a2e); border-radius: 16px; overflow: hidden; box-shadow: 0 20px 60px rgba(0, 212, 255, 0.15);\">\n\n                    <!-- Header -->\n                    <tr>\n                        <td style=\"background: linear-gradient(135deg, #00d4ff, #00ffcc); padding: 30px 40px; text-align: center;\">\n                            <h1 style=\"margin: 0; color: #0a0a0f; font-size: 28px; font-weight: 700; letter-spacing: 1px;\">\n                                ✉️ New Message Received\n                            </h1>\n                            <p style=\"margin: 10px 0 0; color: #0d1b2a; font-size: 14px; opacity: 0.8;\">\n                                Someone contacted you through your portfolio\n                            </p>\n                        </td>\n                    </tr>\n\n                    <!-- Timestamp -->\n                    <tr>\n                        <td style=\"padding: 20px 40px 0; text-align: center;\">\n                            <p style=\"margin: 0; color: #a0a0a0; font-size: 12px;\">\n                                📅 "

def htmlChunk1 : String :=
  "\n                            </p>\n                        </td>\n                    </tr>\n\n                    <!-- Contact Details -->\n                    <tr>\n                        <td style=\"padding: 30px 40px;\">\n                            <table role=\"presentation\" width=\"100%\" cellspacing=\"0\" cellpadding=\"0\">\n\n                                <!-- Name -->\n                                <tr>\n                                    <td style=\"padding: 15px 20px; background: rgba(255,255,255,0.03); border-radius: 12px; margin-bottom: 10px;\">\n                                        <table role=\"presentation\" width=\"100%\" cellspacing=\"0\" cellpadding=\"0\">\n                                            <tr>\n                                                <td width=\"40\" style=\"vertical-align: top;\">\n                                                    <div style=\"width: 36px; height: 36px; background: linear-gradient(135deg, #00d4ff, #00ffcc); border-radius: 8px; text-align: center; line-height: 36px; font-size: 16px;\">\n                                                        👤\n                                                    </div>\n                                                </td>\n                                                <td style=\"padding-left: 15px; vertical-align: top;\">\n                                                    <p style=\"margin: 0 0 4px; color: #a0a0a0; font-size: 11px; text-transform: uppercase; letter-spacing: 1px;\">Name</p>\n                                                    <p style=\"margin: 0; color: #ffffff; font-size: 16px; font-weight: 600;\">"

def htmlChunk2 : String :=
  "</p>\n                                                </td>\n                                            </tr>\n                                        </table>\n                                    </td>\n                                </tr>\n\n                                <tr><td style=\"height: 12px;\"></td></tr>\n\n                                <!-- Email -->\n                                <tr>\n                                    <td style=\"padding: 15px 20px; background: rgba(255,255,255,0.03); border-radius: 12px;\">\n                                        <table role=\"presentation\" width=\"100%\" cellspacing=\"0\" cellpadding=\"0\">\n                                            <tr>\n                                                <td width=\"40\" style=\"vertical-align: top;\">\n                                                    <div style=\"width: 36px; height: 36px; background: linear-gradient(135deg, #00d4ff, #00ffcc); border-radius: 8px; text-align: center; line-height: 36px; font-size: 16px;\">\n                                                        📧\n                                                    </div>\n                                                </td>\n                                                <td style=\"padding-left: 15px; vertical-align: top;\">\n                                                    <p style=\"margin: 0 0 4px; color: #a0a0a0; font-size: 11px; text-transform: uppercase; letter-spacing: 1px;\">Email</p>\n                                                    <a href=\"mailto:"

def htmlChunk3 : String :=
  "\" style=\"color: #00d4ff; font-size: 16px; font-weight: 600; text-decoration: none;\">"

def htmlChunk4 : String :=
  "</a>\n                                                </td>\n                                            </tr>\n                                        </table>\n                                    </td>\n                                </tr>\n\n                                <tr><td style=\"height: 12px;\"></td></tr>\n\n                                <!-- Subject -->\n                                <tr>\n                                    <td style=\"padding: 15px 20px; background: rgba(255,255,255,0.03); border-radius: 12px;\">\n                                        <table role=\"presentation\" width=\"100%\" cellspacing=\"0\" cellpadding=\"0\">\n                                            <tr>\n                                                <td width=\"40\" style=\"vertical-align: top;\">\n                                                    <div style=\"width: 36px; height: 36px; background: linear-gradient(135deg, #00d4ff, #00ffcc); border-radius: 8px; text-align: center; line-height: 36px; font-size: 16px;\">\n                                                        📝\n                                                    </div>\n                                                </td>\n                                                <td style=\"padding-left: 15px; vertical-align: top;\">\n                                                    <p style=\"margin: 0 0 4px; color: #a0a0a0; font-size: 11px; text-transform: uppercase; letter-spacing: 1px;\">Subject</p>\n                                                    <p style=\"margin: 0; color: #ffffff; font-size: 16px; font-weight: 600;\">"

def htmlChunk5 : String :=
  "</p>\n                                                </td>\n                                            </tr>\n                                        </table>\n                                    </td>\n                                </tr>\n\n                            </table>\n                        </td>\n                    </tr>\n\n                    <!-- Message -->\n                    <tr>\n                        <td style=\"padding: 0 40px 30px;\">\n                            <div style=\"background: rgba(0, 212, 255, 0.05); border: 1px solid rgba(0, 212, 255, 0.2); border-radius: 12px; padding: 25px;\">\n                                <p style=\"margin: 0 0 12px; color: #00d4ff; font-size: 13px; text-transform: uppercase; letter-spacing: 1px; font-weight: 600;\">\n                                    💬 Message\n                                </p>\n                                <p style=\"margin: 0; color: #e0e0e0; font-size: 15px; line-height: 1.7; white-space: pre-wrap;\">"

def htmlChunk6 : String :=
  "</p>\n                            </div>\n                        </td>\n                    </tr>\n\n                    <!-- Reply Button -->\n                    <tr>\n                        <td style=\"padding: 0 40px 30px; text-align: center;\">\n                            <a href=\"mailto:"

def htmlChunk7 : String :=
  "?subject=Re: "

def htmlChunk8 : String :=
  "\"\n                               style=\"display: inline-block; background: linear-gradient(135deg, #00d4ff, #00ffcc); color: #0a0a0f; text-decoration: none; padding: 14px 40px; border-radius: 8px; font-weight: 600; font-size: 14px; letter-spacing: 0.5px;\">\n                                Reply to "

def htmlChunk9 : String :=
  " →\n                            </a>\n                        </td>\n                    </tr>\n\n                    <!-- Footer -->\n                    <tr>\n                        <td style=\"background: rgba(0,0,0,0.3); padding: 25px 40px; text-align: center; border-top: 1px solid rgba(255,255,255,0.05);\">\n                            <p style=\"margin: 0 0 8px; color: #ffffff; font-size: 16px; font-weight: 700;\">\n                                Ajay Jaiswar\n                            </p>\n                            <p style=\"margin: 0; color: #a0a0a0; font-size: 12px;\">\n                                QA Analyst & Frontend Developer\n                            </p>\n                            <p style=\"margin: 15px 0 0; color: #6b6b6b; font-size: 11px;\">\n                                This email was sent from your portfolio contact form\n                            </p>\n                        </td>\n                    </tr>\n\n                </table>\n            </td>\n        </tr>\n    </table>\n</body>\n</html>\n    "

def textChunk0 : String :=
  "\n════════" ++ "════════" ++ "════════" ++ "════════" ++ "════════" ++ "═══\n       NEW CONTACT FORM SUBMISSION\n════════" ++ "════════" ++ "════════" ++ "════════" ++ "════════" ++ "═══\n\n📅 Date: "

def textChunk1 : String :=
  "\n\n────────" ++ "────────" ++ "────────" ++ "────────" ++ "────────" ++ "───\nCONTACT DETAILS\n────────" ++ "────────" ++ "────────" ++ "────────" ++ "────────" ++ "───\n\n👤 Name:    "

def textChunk2 : String :=
  "\n📧 Email:   "

def textChunk3 : String :=
  "\n📝 Subject: "

def textChunk4 : String :=
  "\n\n────────" ++ "────────" ++ "────────" ++ "────────" ++ "────────" ++ "───\nMESSAGE\n────────" ++ "────────" ++ "────────" ++ "────────" ++ "────────" ++ "───\n\n"

def textChunk5 : String :=
  "\n\n════════" ++ "════════" ++ "════════" ++ "════════" ++ "════════" ++ "═══\nSent from Ajay Jaiswar\x27s Portfolio Website\n════════" ++ "════════" ++ "════════" ++ "════════" ++ "════════" ++ "═══\n    "

def vhtmlChunk0 : String :=
  "\n<!DOCTYPE html>\n<html lang=\"en\">\n<head>\n    <meta charset=\"UTF-8\">\n    <meta name=\"viewport\" content=\"width=device-width, initial-scale=1.0\">\n    <title>New Contact Form Submission</title>\n</head>\n<body style=\"margin: 0; padding: 0; font-family: \x27Segoe UI\x27, Tahoma, Geneva, Verdana, sans-serif; background-color: #0a0a0f;\">\n    <table role=\"presentation\" width=\"100%\" cellspacing=\"0\" cellpadding=\"0\" style=\"background-color: #0a0a0f; padding: 40px 20px;\">\n        <tr>\n            <td align=\"center\">\n                <table role=\"presentation\" width=\"600\" cellspacing=\"0\" cellpadding=\"0\" style=\"background: linear-gradient(145deg, #0d1b2a, #1a1a2e); border-radius: 16px; overflow: hidden; box-shadow: 0 20px 60px rgba(0, 212, 255, 0.15);\">\n                    <tr>\n                        <td style=\"background: linear-gradient(135deg, #00d4ff, #00ffcc); padding: 30px 40px; text-align: center;\">\n                            <h1 style=\"margin: 0; color: #0a0a0f; font-size: 28px; font-weight: 700;\">New Message Received</h1>\n                            <p style=\"margin: 10px 0 0; color: #0d1b2a; font-size: 14px;\">Someone contacted you through your portfolio</p>\n                        </td>\n                    </tr>\n                    <tr>\n                        <td style=\"padding: 20px 40px 0; text-align: center;\">\n                            <p style=\"margin: 0; color: #a0a0a0; font-size: 12px;\">"

def vhtmlChunk1 : String :=
  "</p>\n                        </td>\n                    </tr>\n                    <tr>\n                        <td style=\"padding: 30px 40px;\">\n                            <div style=\"padding: 15px 20px; background: rgba(255,255,255,0.03); border-radius: 12px; margin-bottom: 12px;\">\n                                <p style=\"margin: 0 0 4px; color: #a0a0a0; font-size: 11px; text-transform: uppercase;\">Name</p>\n                                <p style=\"margin: 0; color: #ffffff; font-size: 16px; font-weight: 600;\">"

def vhtmlChunk2 : String :=
  "</p>\n                            </div>\n                            <div style=\"padding: 15px 20px; background: rgba(255,255,255,0.03); border-radius: 12px; margin-bottom: 12px;\">\n                                <p style=\"margin: 0 0 4px; color: #a0a0a0; font-size: 11px; text-transform: uppercase;\">Email</p>\n                                <a href=\"mailto:"

def vhtmlChunk3 : String :=
  "\" style=\"color: #00d4ff; font-size: 16px; font-weight: 600; text-decoration: none;\">"

def vhtmlChunk4 : String :=
  "</a>\n                            </div>\n                            <div style=\"padding: 15px 20px; background: rgba(255,255,255,0.03); border-radius: 12px;\">\n                                <p style=\"margin: 0 0 4px; color: #a0a0a0; font-size: 11px; text-transform: uppercase;\">Subject</p>\n                                <p style=\"margin: 0; color: #ffffff; font-size: 16px; font-weight: 600;\">"

def vhtmlChunk5 : String :=
  "</p>\n                            </div>\n                        </td>\n                    </tr>\n                    <tr>\n                        <td style=\"padding: 0 40px 30px;\">\n                            <div style=\"background: rgba(0, 212, 255, 0.05); border: 1px solid rgba(0, 212, 255, 0.2); border-radius: 12px; padding: 25px;\">\n                                <p style=\"margin: 0 0 12px; color: #00d4ff; font-size: 13px; text-transform: uppercase; font-weight: 600;\">Message</p>\n                                <p style=\"margin: 0; color: #e0e0e0; font-size: 15px; line-height: 1.7; white-space: pre-wrap;\">"

def vhtmlChunk6 : String :=
  "</p>\n                            </div>\n                        </td>\n                    </tr>\n                    <tr>\n                        <td style=\"padding: 0 40px 30px; text-align: center;\">\n                            <a href=\"mailto:"

def vhtmlChunk7 : String :=
  "?subject=Re: "

def vhtmlChunk8 : String :=
  "\" style=\"display: inline-block; background: linear-gradient(135deg, #00d4ff, #00ffcc); color: #0a0a0f; text-decoration: none; padding: 14px 40px; border-radius: 8px; font-weight: 600; font-size: 14px;\">Reply to "

def vhtmlChunk9 : String :=
  "</a>\n                        </td>\n                    </tr>\n                    <tr>\n                        <td style=\"background: rgba(0,0,0,0.3); padding: 25px 40px; text-align: center; border-top: 1px solid rgba(255,255,255,0.05);\">\n                            <p style=\"margin: 0 0 8px; color: #ffffff; font-size: 16px; font-weight: 700;\">Ajay Jaiswar</p>\n                            <p style=\"margin: 0; color: #a0a0a0; font-size: 12px;\">QA Analyst & Frontend Developer</p>\n                        </td>\n                    </tr>\n                </table>\n            </td>\n        </tr>\n    </table>\n</body>\n</html>\n    "

def logChunk0 : String :=
  "\n════════" ++ "════════" ++ "════════" ++ "════════" ++ "════════" ++ "════════" ++ "════════" ++ "════\n                    NEW CONTACT SUBMISSION\n════════" ++ "════════" ++ "════════" ++ "════════" ++ "════════" ++ "════════" ++ "════════" ++ "════\n📅 Date/Time: "

def logChunk1 : String :=
  "\n────────" ++ "────────" ++ "────────" ++ "────────" ++ "────────" ++ "────────" ++ "────────" ++ "────\n👤 Name:      "

def logChunk2 : String :=
  "\n📧 Email:     "

def logChunk3 : String :=
  "\n📝 Subject:   "

def logChunk4 : String :=
  "\n────────" ++ "────────" ++ "────────" ++ "────────" ++ "────────" ++ "────────" ++ "────────" ++ "────\n💬 Message:\n"

def logChunk5 : String :=
  "\n════════" ++ "════════" ++ "════════" ++ "════════" ++ "════════" ++ "════════" ++ "════════" ++ "════\n\n"

/-- `generateEmailTemplate` of server.js.  The locale-formatted `new Date()`
string is the explicit parameter `currentDate`. -/
def generateEmailTemplate (currentDate : String) (i : SubmissionInput) : String :=
  htmlChunk0 ++ currentDate ++ htmlChunk1 ++ escapeHtml i.name ++ htmlChunk2 ++
  escapeHtml i.email ++ htmlChunk3 ++ escapeHtml i.email ++ htmlChunk4 ++
  escapeHtml i.subject ++ htmlChunk5 ++ escapeHtml i.message ++ htmlChunk6 ++
  escapeHtml i.email ++ htmlChunk7 ++ escapeHtml i.subject ++ htmlChunk8 ++
  escapeHtml (firstWord i.name) ++ htmlChunk9

/-- `generatePlainTextEmail` of server.js; the `new Date().toLocaleString` value
is the explicit parameter `now`.  The four fields appear verbatim, unescaped. -/
def generatePlainTextEmail (now : String) (i : SubmissionInput) : String :=
  textChunk0 ++ now ++ textChunk1 ++ i.name ++ textChunk2 ++ i.email ++ textChunk3 ++
  i.subject ++ textChunk4 ++ i.message ++ textChunk5

/-- `generateEmailTemplate` of api/contact.js (the serverless variant). -/
def generateEmailTemplateVercel (currentDate : String) (i : SubmissionInput) : String :=
  vhtmlChunk0 ++ currentDate ++ vhtmlChunk1 ++ escapeHtml i.name ++ vhtmlChunk2 ++
  escapeHtml i.email ++ vhtmlChunk3 ++ escapeHtml i.email ++ vhtmlChunk4 ++
  escapeHtml i.subject ++ vhtmlChunk5 ++ escapeHtml i.message ++ vhtmlChunk6 ++
  escapeHtml i.email ++ vhtmlChunk7 ++ escapeHtml i.subject ++ vhtmlChunk8 ++
  escapeHtml (firstWord i.name) ++ vhtmlChunk9

/-- The text block `saveSubmissionToFile` appends to the submissions file
(`timestamp` is the locale-formatted `new Date()`). -/
def logEntry (timestamp : String) (i : SubmissionInput) : String :=
  logChunk0 ++ timestamp ++ logChunk1 ++ i.name ++ logChunk2 ++ i.email ++
  logChunk3 ++ i.subject ++ logChunk4 ++ i.message ++ logChunk5

/- ===================== Mail options and responses ===================== -/

/-- JavaScript truthiness of a possibly-undefined environment string
(`undefined` and `""` are falsy). -/
def jsTruthy : Option String → Bool
  | some s => s ≠ ""
  | none => false

/-- JavaScript `a || b` for possibly-undefined strings. -/
def orJS (a b : Option String) : Option String :=
  if jsTruthy a then a else b

/-- Interpolating a possibly-undefined value into a template literal
(JavaScript prints `undefined`). -/
def jsShow : Option String → String
  | some s => s
  | none => "undefined"

/-- The object passed to `transporter.sendMail`. -/
structure MailOptions where
  fromAddr : String
  toAddr : Option String
  replyTo : String
  subject : String
  html : String
  text : String
deriving DecidableEq

/-- The JSON body of a contact/health response (`none` fields are absent). -/
structure ResponseBody where
  success : Bool
  message : Option String
  errors : Option (List String)
deriving DecidableEq

/-- An HTTP response: status code and optional JSON body. -/
structure Response where
  status : Nat
  body : Option ResponseBody
deriving DecidableEq

def thankYouMessage : String :=
  "Thank you for your message! I will get back to you soon."

def genericErrorMessage : String :=
  "Sorry, there was an error sending your message. Please try again later."

/-- One observable side effect of a request, in execution order. -/
inductive Event where
  | fileAppend : String → Event
  | fileAppendError : String → Event
  | transporterCreated : Bool → Event
  | sendAttempt : MailOptions → Event
  | serverError : String → Event
deriving DecidableEq

/- ===================== The Express server handler ===================== -/

/-- The state of the Express process and of the I/O operations a request will
perform: whether a transporter instance exists, whether `sendMail` throws (and
with which message), whether `fs.appendFileSync` throws, and the relevant
environment variables. -/
structure ServerEnv where
  transporter : Bool
  sendError : Option String
  appendError : Option String
  emailUser : Option String
  emailTo : Option String
deriving DecidableEq

/-- The `mailOptions` object of server.js. -/
def mailOptionsServer (env : ServerEnv) (now : String) (i : SubmissionInput) : MailOptions :=
  { fromAddr := "\"Portfolio Contact\" <" ++ jsShow env.emailUser ++ ">"
    toAddr := orJS env.emailTo env.emailUser
    replyTo := i.email
    subject := "🚀 Portfolio: " ++ i.subject
    html := generateEmailTemplate now i
    text := generatePlainTextEmail now i }

/-- `saveSubmissionToFile` of server.js: append the formatted entry; an
exception from the append is caught inside the function and only logged. -/
def saveSubmissionToFile (env : ServerEnv) (now : String) (i : SubmissionInput) : List Event :=
  match env.appendError with
  | none => [Event.fileAppend (logEntry now i)]
  | some e => [Event.fileAppendError e]

/-- The POST /api/contact handler of the Express server, as a pure function of
the request body and the environment.  Returns the HTTP response and the
ordered trace of side effects. -/
def contactServer (env : ServerEnv) (now : String) (i : SubmissionInput) :
    Response × List Event :=
  let errors := validationErrors i
  if errors.length > 0 then
    ({ status := 400,
       body := some { success := false, message := none, errors := some errors } }, [])
  else
    let saveEvents := saveSubmissionToFile env now i
    if env.transporter then
      let mail := mailOptionsServer env now i
      match env.sendError with
      | some e =>
        ({ status := 500,
           body := some { success := false, message := some genericErrorMessage, errors := none } },
         saveEvents ++ [Event.sendAttempt mail, Event.serverError e])
      | none =>
        ({ status := 200,
           body := some { success := true, message := some thankYouMessage, errors := none } },
         saveEvents ++ [Event.sendAttempt mail])
    else
      ({ status := 200,
         body := some { success := true, message := some thankYouMessage, errors := none } },
       saveEvents)

/- ===================== The serverless handler (api/contact.js) ===================== -/

/-- Environment of one invocation of the serverless handler. -/
structure VercelEnv where
  emailUser : Option String
  emailPass : Option String
  emailTo : Option String
  testAccountError : Option String
  sendError : Option String
deriving DecidableEq

/-- The `mailOptions` object of api/contact.js. -/
def mailOptionsVercel (env : VercelEnv) (now : String) (i : SubmissionInput) : MailOptions :=
  { fromAddr := "\"Portfolio Contact\" <" ++
      jsShow (orJS env.emailUser (some "noreply@portfolio.com")) ++ ">"
    toAddr := orJS env.emailTo (orJS env.emailUser (some "ajayjaiswar6340@gmail.com"))
    replyTo := i.email
    subject := "Portfolio: " ++ i.subject
    html := generateEmailTemplateVercel now i
    text := "Name: " ++ i.name ++ "\nEmail: " ++ i.email ++ "\nSubject: " ++ i.subject ++
      "\nMessage: " ++ i.message }

/-- The send step of the serverless handler (everything after the transporter
was built): `sendMail` either succeeds (200 thank-you) or throws into the catch
block (500 with the fixed generic message, error logged server-side). -/
def vercelSend (env : VercelEnv) (now : String) (i : SubmissionInput) (pre : List Event) :
    Response × List Event :=
  let mail := mailOptionsVercel env now i
  match env.sendError with
  | some e =>
    ({ status := 500,
       body := some { success := false, message := some genericErrorMessage, errors := none } },
     pre ++ [Event.sendAttempt mail, Event.serverError e])
  | none =>
    ({ status := 200,
       body := some { success := true, message := some thankYouMessage, errors := none } },
     pre ++ [Event.sendAttempt mail])

/-- The serverless contact handler (api/contact.js module.exports). -/
def vercelContact (env : VercelEnv) (method : String) (now : String) (i : SubmissionInput) :
    Response × List Event :=
  if method = "OPTIONS" then
    ({ status := 200, body := none }, [])
  else if method ≠ "POST" then
    ({ status := 405,
       body := some { success := false, message := some "Method not allowed", errors := none } }, [])
  else
    let errors := validationErrors i
    if errors.length > 0 then
      ({ status := 400,
         body := some { success := false, message := none, errors := some errors } }, [])
    else
      if jsTruthy env.emailUser && jsTruthy env.emailPass then
        vercelSend env now i [Event.transporterCreated true]
      else
        match env.testAccountError with
        | some e =>
          ({ status := 500,
             body := some { success := false, message := some genericErrorMessage, errors := none } },
           [Event.serverError e])
        | none => vercelSend env now i [Event.transporterCreated false]

/- ===================== The health endpoints ===================== -/

/-- A health-check JSON body; `emailConfigured = none` means the field is
absent from the JSON object. -/
structure HealthBody where
  status : String
  message : String
  timestamp : String
  emailConfigured : Option Bool
deriving DecidableEq

/-- GET /api/health of the Express server: `emailConfigured` is
`!!transporter`. -/
def healthServer (transporter : Bool) (now : String) : Nat × HealthBody :=
  (200, { status := "ok", message := "Portfolio API is running", timestamp := now,
          emailConfigured := some transporter })

/-- The serverless health handler (api/health.js): a 200 with status, message
and timestamp — it sends no `emailConfigured` field. -/
def healthServerless (now : String) : Nat × HealthBody :=
  (200, { status := "ok", message := "Portfolio API is running", timestamp := now,
          emailConfigured := none })

/- ===================== Per-field checks and script-tag safety ===================== -/

/-- The name check in isolation: it reads only the name field. -/
def nameCheck (name : String) : List String :=
  if name = "" ∨ (jsTrim name).length < 2 then [nameErrorMsg] else []

/-- The email check in isolation: it reads only the email field. -/
def emailCheck (email : String) : List String :=
  if email = "" ∨ isValidEmail email = false then [emailErrorMsg] else []

/-- The subject check in isolation: it reads only the subject field. -/
def subjectCheck (subject : String) : List String :=
  if subject = "" ∨ (jsTrim subject).length < 3 then [subjectErrorMsg] else []

/-- The message check in isolation: it reads only the message field. -/
def messageCheck (message : String) : List String :=
  if message = "" ∨ (jsTrim message).length < 20 then [messageErrorMsg] else []

/-- The characters of the literal string "<script>". -/
def scriptTag : List Char := "<script>".data

/-- `l` contains no occurrence of the script tag, and no non-empty proper
prefix of the tag is a suffix of `l` (so that appending further safe text can
never complete an occurrence across the boundary). -/
def Safe (l : List Char) : Prop :=
  ¬ scriptTag <:+: l ∧ ∀ k < scriptTag.length, 0 < k → ¬ (scriptTag.take k <:+ l)

instance (l : List Char) : Decidable (Safe l) := by
  unfold Safe
  infer_instance

/-- A cheap local check implying `Safe`: no occurrence of "<" is immediately
followed by "s", and the list does not end in "<". -/
def ltOk : List Char → Bool
  | [] => true
  | [c] => c != '<'
  | c :: d :: rest => (c != '<' || d != 's') && ltOk (d :: rest)

/- ===================== Concrete sample inputs ===================== -/

/-- The valid end-to-end input of the specification scenarios. -/
def sampleValid : SubmissionInput :=
  { name := "Al", email := "a@b.co", subject := "Hi!",
    message := "This message is long enough to pass the check." }

/-- The invalid end-to-end input of the specification scenarios. -/
def sampleInvalid : SubmissionInput :=
  { name := "A", email := "bad", subject := "Hi!", message := "short" }

/-- A valid input whose message contains a script tag. -/
def sampleScript : SubmissionInput :=
  { name := "Al", email := "a@b.co", subject := "Hi!",
    message := "Watch out <script>alert(1)</script> padding padding padding." }

/- ===================== Characterisation of the matcher ===================== -/

theorem isEmailChar_iff {c : Char} :
    isEmailChar c = true ↔ ¬c.isWhitespace ∧ c ≠ '@' := by
  simp [isEmailChar, Bool.and_eq_true, Bool.not_eq_true']

theorem plusThen_iff {k : List Char → Bool} {cs : List Char} :
    plusThen k cs = true ↔
      ∃ a b, cs = a ++ b ∧ a ≠ [] ∧ (∀ c ∈ a, isEmailChar c = true) ∧ k b = true := by
  induction cs with
  | nil =>
    constructor
    · intro h
      simp [plusThen] at h
    · rintro ⟨a, b, heq, ha, -, -⟩
      exact absurd (List.append_eq_nil.mp heq.symm).1 ha
  | cons c cs ih =>
    simp only [plusThen, Bool.and_eq_true, Bool.or_eq_true]
    constructor
    · rintro ⟨hc, hk | hp⟩
      · exact ⟨[c], cs, rfl, by simp, by simpa using hc, hk⟩
      · obtain ⟨a, b, rfl, ha, hall, hk⟩ := ih.mp hp
        refine ⟨c :: a, b, rfl, by simp, ?_, hk⟩
        intro x hx
        rcases List.mem_cons.mp hx with rfl | hx
        · exact hc
        · exact hall x hx
    · rintro ⟨a, b, heq, ha, hall, hk⟩
      rcases a with _ | ⟨a0, a'⟩
      · exact absurd rfl ha
      · rw [List.cons_append] at heq
        injection heq with h1 h2
        subst h1
        subst h2
        refine ⟨hall c (by simp), ?_⟩
        rcases a' with _ | ⟨a1, a''⟩
        · exact Or.inl (by simpa using hk)
        · exact Or.inr (ih.mpr ⟨a1 :: a'', b, rfl, by simp,
            fun x hx => hall x (List.mem_cons_of_mem _ hx), hk⟩)

theorem dotTail_iff {cs : List Char} :
    dotTail cs = true ↔
      ∃ d2, cs = '.' :: d2 ∧ d2 ≠ [] ∧ (∀ c ∈ d2, isEmailChar c = true) := by
  cases cs with
  | nil =>
    constructor
    · intro h
      simp [dotTail] at h
    · rintro ⟨d2, heq, -, -⟩
      exact absurd heq (by simp)
  | cons c cs =>
    simp only [dotTail, Bool.and_eq_true, beq_iff_eq, Bool.not_eq_true',
      List.all_eq_true]
    constructor
    · rintro ⟨rfl, hne, hall⟩
      exact ⟨cs, rfl, by simpa using hne, hall⟩
    · rintro ⟨d2, heq, hne, hall⟩
      injection heq with h1 h2
      subst h1
      subst h2
      exact ⟨rfl, by simpa using hne, hall⟩

theorem atDomain_iff {cs : List Char} :
    atDomain cs = true ↔
      ∃ d, cs = '@' :: d ∧ plusThen dotTail d = true := by
  cases cs with
  | nil =>
    constructor
    · intro h
      simp [atDomain] at h
    · rintro ⟨d, heq, -⟩
      exact absurd heq (by simp)
  | cons c cs =>
    simp only [atDomain, Bool.and_eq_true, beq_iff_eq]
    constructor
    · rintro ⟨rfl, h⟩
      exact ⟨cs, rfl, h⟩
    · rintro ⟨d, heq, h⟩
      injection heq with h1 h2
      subst h1
      subst h2
      exact ⟨rfl, h⟩

theorem isValidEmail_iff {email : String} :
    isValidEmail email = true ↔ emailPatternMatches email := by
  unfold isValidEmail emailPatternMatches
  rw [plusThen_iff]
  constructor
  · rintro ⟨l, b, heq, hl, halll, hb⟩
    obtain ⟨d, rfl, hd⟩ := atDomain_iff.mp hb
    obtain ⟨d1, r, rfl, hd1, halld1, hr⟩ := plusThen_iff.mp hd
    obtain ⟨d2, rfl, hd2, halld2⟩ := dotTail_iff.mp hr
    refine ⟨l, d1, d2, by simpa using heq, hl, hd1, hd2, ?_⟩
    intro c hc
    rw [← isEmailChar_iff]
    rcases List.mem_append.mp hc with hc' | hc'
    · rcases List.mem_append.mp hc' with h | h
      · exact halll c h
      · exact halld1 c h
    · exact halld2 c hc'
  · rintro ⟨l, d1, d2, heq, hl, hd1, hd2, hall⟩
    refine ⟨l, '@' :: (d1 ++ '.' :: d2), heq, hl, ?_, ?_⟩
    · intro c hc
      rw [isEmailChar_iff]
      exact hall c (by simp [hc])
    · refine atDomain_iff.mpr ⟨d1 ++ '.' :: d2, rfl, ?_⟩
      refine plusThen_iff.mpr ⟨d1, '.' :: d2, rfl, hd1, ?_, ?_⟩
      · intro c hc
        rw [isEmailChar_iff]
        exact hall c (by simp [hc])
      · refine dotTail_iff.mpr ⟨d2, rfl, hd2, ?_⟩
        intro c hc
        rw [isEmailChar_iff]
        exact hall c (by simp [hc])

/- sanity examples for the matcher -/
example : isValidEmail "a@b.co" = true := by decide
example : isValidEmail "bad" = false := by decide
example : isValidEmail "a@b" = false := by decide
example : isValidEmail "a@.b" = false := by decide
example : isValidEmail "a b@c.d" = false := by decide
example : isValidEmail "a@b.c.d" = true := by decide
example : validationErrors ⟨"A", "bad", "Hi!", "short"⟩ =
    [nameErrorMsg, emailErrorMsg, messageErrorMsg] := by decide
example : validationErrors ⟨"Al", "a@b.co", "Hi!",
    "This message is long enough to pass the check."⟩ = [] := by decide

/- ===================== Validation helper lemmas ===================== -/

theorem if_list_eq_nil {c : Prop} [Decidable c] {m : String} :
    (if c then [m] else []) = ([] : List String) ↔ ¬c := by
  by_cases h : c <;> simp [h]

theorem validate_valid_iff_no_errors (i : SubmissionInput) :
    validate i = ValidationResult.valid ↔ validationErrors i = [] := by
  unfold validate
  rcases h : validationErrors i with _ | ⟨e, es⟩ <;> simp [h]

theorem jsTrim_empty : jsTrim "" = "" := rfl

theorem not_short_iff {s : String} {t : Nat} (ht : 0 < t) :
    ¬(s = "" ∨ (jsTrim s).length < t) ↔ t ≤ (jsTrim s).length := by
  constructor
  · intro h
    exact Nat.not_lt.mp fun hlt => h (Or.inr hlt)
  · intro h
    rintro (rfl | hlt)
    · rw [jsTrim_empty] at h
      have h0 : ("" : String).length = 0 := rfl
      rw [h0] at h
      omega
    · omega

theorem isValidEmail_empty : isValidEmail "" = false := rfl

theorem email_cond_iff {s : String} :
    ¬(s = "" ∨ isValidEmail s = false) ↔ isValidEmail s = true := by
  constructor
  · intro h
    cases he : isValidEmail s
    · exact absurd (Or.inr he) h
    · rfl
  · intro h
    rintro (rfl | hf)
    · rw [isValidEmail_empty] at h
      exact Bool.false_ne_true h
    · rw [h] at hf
      exact Bool.noConfusion hf

theorem validationErrors_eq_nil_iff (i : SubmissionInput) :
    validationErrors i = [] ↔
      2 ≤ (jsTrim i.name).length ∧ isValidEmail i.email = true ∧
      3 ≤ (jsTrim i.subject).length ∧ 20 ≤ (jsTrim i.message).length := by
  unfold validationErrors
  rw [List.append_eq_nil, List.append_eq_nil, List.append_eq_nil]
  rw [if_list_eq_nil, if_list_eq_nil, if_list_eq_nil, if_list_eq_nil]
  rw [not_short_iff (by omega), email_cond_iff, not_short_iff (by omega),
    not_short_iff (by omega)]
  tauto

/-- C1: validation returns Valid iff the trimmed name has length at least 2,
the email matches the simple pattern (a non-empty run of non-whitespace
non-at-sign characters, an at-sign, a non-empty run, a dot, a final non-empty
run), the trimmed subject has length at least 3 and the trimmed message has
length at least 20. -/
theorem c1_validate_valid_iff (i : SubmissionInput) :
    validate i = ValidationResult.valid ↔
      2 ≤ (jsTrim i.name).length ∧ emailPatternMatches i.email ∧
      3 ≤ (jsTrim i.subject).length ∧ 20 ≤ (jsTrim i.message).length := by
  rw [validate_valid_iff_no_errors, validationErrors_eq_nil_iff, isValidEmail_iff]

/-- C4: the error list is non-empty exactly when the result is Invalid, any
Invalid result carries precisely the collected list, and the list is the
concatenation of the four independent per-field checks in the fixed order
name, email, subject, message (so all checks run, and every name message
precedes every email message, which precedes every subject message, which
precedes every message-field message). -/
theorem c4_error_list_invariants (i : SubmissionInput) :
    (validate i ≠ ValidationResult.valid ↔ validationErrors i ≠ []) ∧
    (validate i = ValidationResult.valid ∨
      (validate i = ValidationResult.invalid (validationErrors i) ∧
        validationErrors i ≠ [])) ∧
    validationErrors i =
      nameCheck i.name ++ emailCheck i.email ++ subjectCheck i.subject ++
        messageCheck i.message := by
  refine ⟨not_congr (validate_valid_iff_no_errors i), ?_, rfl⟩
  unfold validate
  rcases h : validationErrors i with _ | ⟨e, es⟩ <;> simp [h]

/- ===================== Handler theorems ===================== -/

/-- C2: when validation fails, both contact handlers return a 400 response
carrying the error list and perform no side effect at all (no log append, no
transporter construction, no send); on the specific input with name "A",
email "bad", subject "Hi!" and message "short" the list has exactly the three
errors for name, email and message (subject passes). -/
theorem c2_invalid_rejected_no_effects (envS : ServerEnv) (envV : VercelEnv)
    (now : String) (i : SubmissionInput) (h : validationErrors i ≠ []) :
    contactServer envS now i =
      ({ status := 400,
         body := some { success := false, message := none,
                        errors := some (validationErrors i) } }, []) ∧
    vercelContact envV "POST" now i =
      ({ status := 400,
         body := some { success := false, message := none,
                        errors := some (validationErrors i) } }, []) ∧
    validationErrors sampleInvalid = [nameErrorMsg, emailErrorMsg, messageErrorMsg] := by
  have hlen : (validationErrors i).length > 0 := by
    cases hh : validationErrors i
    · exact absurd hh h
    · simp
  refine ⟨?_, ?_, by decide⟩
  · unfold contactServer
    simp [hlen]
  · unfold vercelContact
    rw [if_neg (by decide), if_neg (by decide)]
    simp [hlen]

theorem c2_witness :
    contactServer ⟨true, none, none, none, none⟩ "ts" sampleInvalid =
      ({ status := 400,
         body := some { success := false, message := none,
                        errors := some (validationErrors sampleInvalid) } }, []) ∧
    vercelContact ⟨none, none, none, none, none⟩ "POST" "ts" sampleInvalid =
      ({ status := 400,
         body := some { success := false, message := none,
                        errors := some (validationErrors sampleInvalid) } }, []) ∧
    validationErrors sampleInvalid = [nameErrorMsg, emailErrorMsg, messageErrorMsg] :=
  c2_invalid_rejected_no_effects ⟨true, none, none, none, none⟩
    ⟨none, none, none, none, none⟩ "ts" sampleInvalid (by decide)

/-- C3: for a valid input with a working log sink, when `sendMail` throws, the
Express handler has already appended the log entry (the append event precedes
the send attempt in the trace), responds 500 with the fixed generic message
and no error list, the response does not depend on the specific error detail,
and the detail appears only in the server-side log trace. -/
theorem c3_send_failure_logged_generic_500 (env : ServerEnv) (now : String)
    (i : SubmissionInput) (e : String) (hv : validationErrors i = [])
    (ht : env.transporter = true) (hs : env.sendError = some e)
    (ha : env.appendError = none) :
    contactServer env now i =
      ({ status := 500,
         body := some { success := false, message := some genericErrorMessage,
                        errors := none } },
       [Event.fileAppend (logEntry now i),
        Event.sendAttempt (mailOptionsServer env now i),
        Event.serverError e]) ∧
    ∀ e' : String,
      (contactServer { env with sendError := some e' } now i).1 =
        (contactServer env now i).1 := by
  constructor
  · unfold contactServer saveSubmissionToFile
    rw [hv, ht, hs, ha]
    simp
  · intro e'
    unfold contactServer saveSubmissionToFile
    rw [hv]
    simp only [ht, ha, hs]
    simp

theorem c3_witness :
    contactServer ⟨true, some "SMTP connection refused", none, none, none⟩ "ts" sampleValid =
      ({ status := 500,
         body := some { success := false, message := some genericErrorMessage,
                        errors := none } },
       [Event.fileAppend (logEntry "ts" sampleValid),
        Event.sendAttempt (mailOptionsServer
          ⟨true, some "SMTP connection refused", none, none, none⟩ "ts" sampleValid),
        Event.serverError "SMTP connection refused"]) ∧
    ∀ e' : String,
      (contactServer { (⟨true, some "SMTP connection refused", none, none, none⟩ : ServerEnv)
          with sendError := some e' } "ts" sampleValid).1 =
        (contactServer ⟨true, some "SMTP connection refused", none, none, none⟩ "ts"
          sampleValid).1 :=
  c3_send_failure_logged_generic_500
    ⟨true, some "SMTP connection refused", none, none, none⟩ "ts" sampleValid
    "SMTP connection refused" (by decide) rfl rfl rfl

/-- C8: for a valid input, a failure of the log-append step is swallowed: the
submission is not aborted (when a transporter exists the send is still
attempted), and the response is identical to the one produced with a working
sink, so the persistence error is never surfaced to the caller. -/
theorem c8_append_failure_swallowed (env : ServerEnv) (now : String)
    (i : SubmissionInput) (e : String) (hv : validationErrors i = [])
    (ha : env.appendError = some e) :
    (env.transporter = true →
      Event.sendAttempt (mailOptionsServer env now i) ∈ (contactServer env now i).2) ∧
    (contactServer env now i).1 = (contactServer { env with appendError := none } now i).1 := by
  constructor
  · intro ht
    unfold contactServer saveSubmissionToFile
    rw [hv, ht, ha]
    cases env.sendError <;> simp
  · unfold contactServer saveSubmissionToFile
    rw [hv]
    simp only [ha]
    cases env.transporter <;> cases env.sendError <;> simp

theorem c8_witness :
    (Bool.true = true →
      Event.sendAttempt (mailOptionsServer ⟨true, none, some "EACCES", none, none⟩ "ts"
          sampleValid) ∈
        (contactServer ⟨true, none, some "EACCES", none, none⟩ "ts" sampleValid).2) ∧
    (contactServer ⟨true, none, some "EACCES", none, none⟩ "ts" sampleValid).1 =
      (contactServer { (⟨true, none, some "EACCES", none, none⟩ : ServerEnv)
          with appendError := none } "ts" sampleValid).1 :=
  c8_append_failure_swallowed ⟨true, none, some "EACCES", none, none⟩ "ts" sampleValid
    "EACCES" (by decide) rfl

/-- C10: when no transporter instance could be configured at all, a valid
submission is still logged (when the sink works), no send is ever attempted,
yet the handler responds 200 success true with the normal thank-you message —
the very same response the fully delivered case produces, so the caller cannot
distinguish the two. -/
theorem c10_no_transporter_still_success (env : ServerEnv) (now : String)
    (i : SubmissionInput) (hv : validationErrors i = [])
    (ht : env.transporter = false) :
    (contactServer env now i).1 =
      { status := 200,
        body := some { success := true, message := some thankYouMessage, errors := none } } ∧
    (∀ m : MailOptions, Event.sendAttempt m ∉ (contactServer env now i).2) ∧
    (env.appendError = none →
      Event.fileAppend (logEntry now i) ∈ (contactServer env now i).2) ∧
    (contactServer env now i).1 =
      (contactServer { env with transporter := true, sendError := none } now i).1 := by
  refine ⟨?_, ?_, ?_, ?_⟩
  · unfold contactServer
    rw [hv, ht]
    simp
  · intro m
    unfold contactServer saveSubmissionToFile
    rw [hv, ht]
    cases env.appendError <;> simp
  · intro ha
    unfold contactServer saveSubmissionToFile
    rw [hv, ht, ha]
    simp
  · unfold contactServer saveSubmissionToFile
    rw [hv]
    simp only [ht]
    simp

theorem c10_witness :
    (contactServer ⟨false, none, none, none, none⟩ "ts" sampleValid).1 =
      { status := 200,
        body := some { success := true, message := some thankYouMessage, errors := none } } ∧
    (∀ m : MailOptions,
      Event.sendAttempt m ∉ (contactServer ⟨false, none, none, none, none⟩ "ts" sampleValid).2) ∧
    ((⟨false, none, none, none, none⟩ : ServerEnv).appendError = none →
      Event.fileAppend (logEntry "ts" sampleValid) ∈
        (contactServer ⟨false, none, none, none, none⟩ "ts" sampleValid).2) ∧
    (contactServer ⟨false, none, none, none, none⟩ "ts" sampleValid).1 =
      (contactServer { (⟨false, none, none, none, none⟩ : ServerEnv)
          with transporter := true, sendError := none } "ts" sampleValid).1 :=
  c10_no_transporter_still_success ⟨false, none, none, none, none⟩ "ts" sampleValid
    (by decide) rfl

/- ===================== Mail options and health ===================== -/

/-- C6 counterexample: for the valid sample input the Express server's mail
subject is not "Portfolio: " followed by the subject field — the server
prepends a rocket emoji ("🚀 Portfolio: ..."). -/
theorem c6_counterexample :
    validationErrors sampleValid = [] ∧
    (mailOptionsServer ⟨true, none, none, none, none⟩ "ts" sampleValid).subject ≠
      "Portfolio: " ++ sampleValid.subject ∧
    (mailOptionsServer ⟨true, none, none, none, none⟩ "ts" sampleValid).subject =
      "🚀 Portfolio: Hi!" := by
  refine ⟨by decide, by decide, rfl⟩

/-- C6 amended: for every input, the serverless handler's notification has
subject exactly "Portfolio: " ++ subject, while the Express server's has
subject exactly "🚀 Portfolio: " ++ subject; the reply-to address is exactly
the submitted email field in both. -/
theorem c6_subject_and_replyTo (envS : ServerEnv) (envV : VercelEnv)
    (now : String) (i : SubmissionInput) :
    (mailOptionsVercel envV now i).subject = "Portfolio: " ++ i.subject ∧
    (mailOptionsVercel envV now i).replyTo = i.email ∧
    (mailOptionsServer envS now i).subject = "🚀 Portfolio: " ++ i.subject ∧
    (mailOptionsServer envS now i).replyTo = i.email :=
  ⟨rfl, rfl, rfl, rfl⟩

/-- C9 counterexample: the serverless health handler answers 200 but its JSON
body carries no emailConfigured field at all. -/
theorem c9_counterexample :
    (healthServerless "2026-10-11T00:00:00.000Z").1 = 200 ∧
    (healthServerless "2026-10-11T00:00:00.000Z").2.emailConfigured = none :=
  ⟨rfl, rfl⟩

/-- C9 amended: the Express /api/health route always returns 200 with status
"ok", a message, the timestamp, and emailConfigured true exactly when a
transporter instance exists; the serverless health handler returns the same
200 body but without any emailConfigured field. -/
theorem c9_health_endpoints (transporter : Bool) (now : String) :
    healthServer transporter now =
      (200, { status := "ok", message := "Portfolio API is running", timestamp := now,
              emailConfigured := some transporter }) ∧
    ((healthServer transporter now).2.emailConfigured = some true ↔ transporter = true) ∧
    healthServerless now =
      (200, { status := "ok", message := "Portfolio API is running", timestamp := now,
              emailConfigured := none }) := by
  refine ⟨rfl, ?_, rfl⟩
  cases transporter <;> simp [healthServer]

/- ===================== Render determinism (C7) ===================== -/

theorem string_data_inj {x y : String} (h : x.data = y.data) : x = y := by
  cases x
  cases y
  exact congrArg String.mk h

/-- C7: rendering is a pure function whose only clock dependency is the single
formatted-timestamp field: two renders of the same input are byte-identical
exactly when the timestamp strings agree — in particular, a second call with
identical input and the same clock reading yields byte-identical HTML and
plain-text bodies. -/
theorem c7_render_deterministic (i : SubmissionInput) (now now' : String) :
    (generateEmailTemplate now i = generateEmailTemplate now' i ↔ now = now') ∧
    (generatePlainTextEmail now i = generatePlainTextEmail now' i ↔ now = now') := by
  constructor
  · constructor
    · intro h
      have hd := congrArg String.data h
      simp only [generateEmailTemplate, String.data_append, List.append_assoc] at hd
      exact string_data_inj (List.append_cancel_right (List.append_cancel_left hd))
    · intro h
      rw [h]
  · constructor
    · intro h
      have hd := congrArg String.data h
      simp only [generatePlainTextEmail, String.data_append, List.append_assoc] at hd
      exact string_data_inj (List.append_cancel_right (List.append_cancel_left hd))
    · intro h
      rw [h]

/- ===================== Script-tag freedom (C5) ===================== -/

theorem suffix_append_cases {α : Type} {x a b : List α} (h : x <:+ a ++ b) :
    x <:+ b ∨ ∃ x₁, x₁ ≠ [] ∧ x = x₁ ++ b ∧ x₁ <:+ a := by
  induction a with
  | nil => exact Or.inl (by simpa using h)
  | cons c a ih =>
    rw [List.cons_append] at h
    rcases List.suffix_cons_iff.mp h with rfl | h'
    · exact Or.inr ⟨c :: a, by simp, by simp, List.suffix_rfl⟩
    · rcases ih h' with h'' | ⟨x₁, hne, rfl, hsuf⟩
      · exact Or.inl h''
      · exact Or.inr ⟨x₁, hne, rfl, hsuf.trans (List.suffix_cons c a)⟩

theorem prefix_append_cases {α : Type} {x a b : List α} (h : x <+: a ++ b) :
    x <+: a ∨ ∃ x₂, x = a ++ x₂ ∧ x₂ <+: b := by
  induction a generalizing x with
  | nil => exact Or.inr ⟨x, by simp, by simpa using h⟩
  | cons c a ih =>
    rw [List.cons_append] at h
    rcases List.prefix_cons_iff.mp h with rfl | ⟨t, rfl, ht⟩
    · exact Or.inl (by simp)
    · rcases ih ht with h' | ⟨x₂, rfl, h₂⟩
      · exact Or.inl (List.cons_prefix_cons.mpr ⟨rfl, h'⟩)
      · exact Or.inr ⟨x₂, by simp, h₂⟩

theorem infix_append_cases {α : Type} {p a b : List α} (h : p <:+: a ++ b) :
    p <:+: a ∨ p <:+: b ∨
      ∃ k, 0 < k ∧ k < p.length ∧ p.take k <:+ a ∧ p.drop k <+: b := by
  obtain ⟨t, hpt, hts⟩ := List.infix_iff_prefix_suffix.mp h
  rcases suffix_append_cases hts with htb | ⟨t₁, hne, rfl, ht₁⟩
  · exact Or.inr (Or.inl (List.infix_iff_prefix_suffix.mpr ⟨t, hpt, htb⟩))
  · rcases prefix_append_cases hpt with hpt₁ | ⟨p₂, rfl, hp₂⟩
    · exact Or.inl (List.infix_iff_prefix_suffix.mpr ⟨t₁, hpt₁, ht₁⟩)
    · by_cases hp₂nil : p₂ = []
      · subst hp₂nil
        rw [List.append_nil]
        exact Or.inl ht₁.isInfix
      · refine Or.inr (Or.inr ⟨t₁.length, List.length_pos.mpr hne, ?_, ?_, ?_⟩)
        · simp only [List.length_append]
          have := List.length_pos.mpr hp₂nil
          omega
        · rw [List.take_left]
          exact ht₁
        · rw [List.drop_left]
          exact hp₂

theorem Safe.append {a b : List Char} (ha : Safe a) (hb : Safe b) : Safe (a ++ b) := by
  obtain ⟨ha1, ha2⟩ := ha
  obtain ⟨hb1, hb2⟩ := hb
  constructor
  · intro h
    rcases infix_append_cases h with h' | h' | ⟨k, hk0, hklt, hta, -⟩
    · exact ha1 h'
    · exact hb1 h'
    · exact ha2 k hklt hk0 hta
  · intro k hklt hk0 h
    rcases suffix_append_cases h with h' | ⟨x₁, hne, heq, hsuf⟩
    · exact hb2 k hklt hk0 h'
    · have hx1 : x₁ <+: scriptTag.take k := by
        rw [heq]
        exact List.prefix_append x₁ b
      have htp : scriptTag.take k <+: scriptTag := List.take_prefix k scriptTag
      have hpre : x₁ <+: scriptTag := hx1.trans htp
      have hlen : x₁.length < scriptTag.length := by
        have h1 : x₁.length ≤ (scriptTag.take k).length := hx1.length_le
        have h2 : (scriptTag.take k).length ≤ k := by
          simp [List.length_take]
        omega
      have hpos : 0 < x₁.length := List.length_pos.mpr hne
      have hx : x₁ = scriptTag.take x₁.length := List.prefix_iff_eq_take.mp hpre
      rw [hx] at hsuf
      exact ha2 x₁.length hlen hpos hsuf

theorem lt_mem_take {k : Nat} (hk : 0 < k) : '<' ∈ scriptTag.take k := by
  cases k with
  | zero => omega
  | succ k =>
    have hs : scriptTag = '<' :: "script>".data := rfl
    rw [hs, List.take_succ_cons]
    exact List.mem_cons_self _ _

theorem safe_of_no_lt {l : List Char} (h : ∀ c ∈ l, c ≠ '<') : Safe l := by
  constructor
  · intro hinf
    exact h '<' (hinf.subset (by decide)) rfl
  · intro k hklt hk0 hsuf
    exact h '<' (hsuf.subset (lt_mem_take hk0)) rfl

theorem escChar_no_lt (c : Char) : ∀ d ∈ escChar c, d ≠ '<' := by
  intro d hd
  by_cases h1 : c = '&'
  · rw [escChar, if_pos h1] at hd
    exact (by decide : ∀ x ∈ "&amp;".data, x ≠ '<') d hd
  by_cases h2 : c = '<'
  · rw [escChar, if_neg h1, if_pos h2] at hd
    exact (by decide : ∀ x ∈ "&lt;".data, x ≠ '<') d hd
  by_cases h3 : c = '>'
  · rw [escChar, if_neg h1, if_neg h2, if_pos h3] at hd
    exact (by decide : ∀ x ∈ "&gt;".data, x ≠ '<') d hd
  by_cases h4 : c = '"'
  · rw [escChar, if_neg h1, if_neg h2, if_neg h3, if_pos h4] at hd
    exact (by decide : ∀ x ∈ "&quot;".data, x ≠ '<') d hd
  by_cases h5 : c = Char.ofNat 39
  · rw [escChar, if_neg h1, if_neg h2, if_neg h3, if_neg h4, if_pos h5] at hd
    exact (by decide : ∀ x ∈ "&#039;".data, x ≠ '<') d hd
  · rw [escChar, if_neg h1, if_neg h2, if_neg h3, if_neg h4, if_neg h5] at hd
    rw [List.mem_singleton] at hd
    subst hd
    exact h2

theorem escapeHtml_safe (s : String) : Safe (escapeHtml s).data := by
  apply safe_of_no_lt
  intro c hc
  have hc' : c ∈ List.flatMap s.data escChar := hc
  rw [List.mem_flatMap] at hc'
  obtain ⟨x, -, hcx⟩ := hc'
  exact escChar_no_lt x c hcx

theorem infix_append_left {α : Type} {p x : List α} (y : List α) (h : p <:+: x) :
    p <:+: y ++ x := by
  rcases h with ⟨s, t, rfl⟩
  exact ⟨y ++ s, t, by simp⟩

theorem infix_append_right {α : Type} {p x : List α} (y : List α) (h : p <:+: x) :
    p <:+: x ++ y := by
  rcases h with ⟨s, t, rfl⟩
  exact ⟨s, t ++ y, by simp⟩

theorem ltOk_tail {c : Char} {rest : List Char} (h : ltOk (c :: rest) = true) :
    ltOk rest = true := by
  cases rest with
  | nil => rfl
  | cons d rest' =>
    simp only [ltOk, Bool.and_eq_true] at h
    exact h.2

theorem ltOk_no_lt_s {l : List Char} (h : ltOk l = true) (ys : List Char) :
    ¬ ('<' :: 's' :: ys) <:+ l := by
  induction l with
  | nil =>
    intro hs
    exact List.cons_ne_nil _ _ (List.suffix_nil.mp hs)
  | cons c rest ih =>
    intro hs
    rcases List.suffix_cons_iff.mp hs with heq | hs'
    · injection heq with h1 h2
      subst h1
      subst h2
      simp [ltOk] at h
    · exact ih (ltOk_tail h) hs'

theorem ltOk_no_end_lt {l : List Char} (h : ltOk l = true) : ¬ ['<'] <:+ l := by
  induction l with
  | nil =>
    intro hs
    exact List.cons_ne_nil _ _ (List.suffix_nil.mp hs)
  | cons c rest ih =>
    intro hs
    rcases List.suffix_cons_iff.mp hs with heq | hs'
    · injection heq with h1 h2
      subst h1
      subst h2
      have hlt : ltOk ['<'] = false := rfl
      rw [hlt] at h
      exact Bool.noConfusion h
    · exact ih (ltOk_tail h) hs'

theorem ltOk_no_script_infix {l : List Char} (h : ltOk l = true) :
    ¬ scriptTag <:+: l := by
  intro hinf
  induction l with
  | nil => exact absurd (List.infix_nil.mp hinf) (by decide)
  | cons c rest ih =>
    rcases List.infix_cons_iff.mp hinf with hpre | hinf'
    · have hs : scriptTag = '<' :: 's' :: "cript>".data := rfl
      rw [hs] at hpre
      rcases List.cons_prefix_cons.mp hpre with ⟨hc, hp2⟩
      cases rest with
      | nil => exact absurd (List.prefix_nil.mp hp2) (by decide)
      | cons r rest' =>
        rcases List.cons_prefix_cons.mp hp2 with ⟨hr, -⟩
        rw [← hc, ← hr] at h
        simp [ltOk] at h
    · exact ih (ltOk_tail h) hinf'

theorem ltOk_safe {l : List Char} (h : ltOk l = true) : Safe l := by
  constructor
  · exact ltOk_no_script_infix h
  · intro k hklt hk0 hsuf
    cases k with
    | zero => omega
    | succ k' =>
      cases k' with
      | zero => exact ltOk_no_end_lt h hsuf
      | succ m =>
        have htake : scriptTag.take (m + 2) = '<' :: 's' :: ("cript>".data.take m) := by
          have hs : scriptTag = '<' :: 's' :: "cript>".data := rfl
          rw [hs, List.take_succ_cons, List.take_succ_cons]
        rw [htake] at hsuf
        exact ltOk_no_lt_s h _ hsuf

/-- C5: for any input whose fields contain the literal "<script>" (and any
clock string without a "<"), the rendered HTML body of the Express template
contains no literal "<script>" substring — every interpolated field is passed
through escapeHtml, which replaces the five characters ampersand, less-than,
greater-than, double quote and apostrophe — while the rendered plain-text body
contains the raw "<script>" substring unescaped. -/
theorem c5_html_escaped_text_raw (i : SubmissionInput) (now : String)
    (hnow : ∀ c ∈ now.data, c ≠ '<')
    (hfield : scriptTag <:+: i.name.data ∨ scriptTag <:+: i.email.data ∨
      scriptTag <:+: i.subject.data ∨ scriptTag <:+: i.message.data) :
    ¬ scriptTag <:+: (generateEmailTemplate now i).data ∧
    scriptTag <:+: (generatePlainTextEmail now i).data := by
  constructor
  · have hsafe : Safe (generateEmailTemplate now i).data := by
      simp only [generateEmailTemplate, String.data_append, List.append_assoc]
      repeat' apply Safe.append
      all_goals first
        | exact safe_of_no_lt hnow
        | apply escapeHtml_safe
        | exact ltOk_safe (by decide)
    exact hsafe.1
  · simp only [generatePlainTextEmail, String.data_append, List.append_assoc]
    rcases hfield with h | h | h | h
    · exact infix_append_left _ (infix_append_left _ (infix_append_left _
        (infix_append_right _ h)))
    · exact infix_append_left _ (infix_append_left _ (infix_append_left _
        (infix_append_left _ (infix_append_left _ (infix_append_right _ h)))))
    · exact infix_append_left _ (infix_append_left _ (infix_append_left _
        (infix_append_left _ (infix_append_left _ (infix_append_left _
        (infix_append_left _ (infix_append_right _ h)))))))
    · exact infix_append_left _ (infix_append_left _ (infix_append_left _
        (infix_append_left _ (infix_append_left _ (infix_append_left _
        (infix_append_left _ (infix_append_left _ (infix_append_left _
        (infix_append_right _ h)))))))))

theorem c5_witness :
    (∀ c ∈ ("Saturday, 11 October 2025, 10:00 AM" : String).data, c ≠ '<') ∧
    scriptTag <:+: sampleScript.message.data ∧
    ¬ scriptTag <:+:
      (generateEmailTemplate "Saturday, 11 October 2025, 10:00 AM" sampleScript).data ∧
    scriptTag <:+:
      (generatePlainTextEmail "Saturday, 11 October 2025, 10:00 AM" sampleScript).data := by
  refine ⟨by decide, by decide, ?_, ?_⟩
  · exact (c5_html_escaped_text_raw sampleScript _ (by decide)
      (Or.inr (Or.inr (Or.inr (by decide))))).1
  · exact (c5_html_escaped_text_raw sampleScript _ (by decide)
      (Or.inr (Or.inr (Or.inr (by decide))))).2
